import Mathlib

/-!
Verification of the payment reconciliation core of the JMW_ACCESSORIES
Django backend: a shallow embedding of the webhook handlers, the
client-initiated verification view, the reference codec, and the
serial-number / coupon allocation logic, together with theorems settling
the specified properties.

Sources embedded:
- bulk_orders/views.py: bulk_order_payment_webhook, OrderEntryViewSet.initialize_payment
- payment/views.py: InitializePaymentView.post, VerifyPaymentView.post
- payment/models.py: PaymentTransaction.save (reference generation)
- bulk_orders/models.py: OrderEntry.save (serial allocation)
- bulk_orders/serializers.py: OrderEntrySerializer.validate / create
- webhook_router/views.py: router_webhook

The database is modelled as explicit lists of records; each Django
save() is one committed store update (the code opens no enclosing
transaction around multi-save sequences, so every save autocommits).
-/

namespace JMW

/-- HTTP response as observed by the caller: HTTP status code plus the
json body fields named status and message. -/
structure HttpResponse where
  httpStatus : Nat
  status : String
  message : String
deriving DecidableEq, Repr

/-- Modelled from the spec: the Gateway Client module payment/utils.py
(functions initialize_payment and verify_payment) is imported by both
reconcile entry points but is not under src/. Per the spec, verify
returns the JSON body with a boolean top-level status and a data.status
string; a transport error or timeout yields a falsy result, modelled as
none. -/
structure GatewayVerifyData where
  status : Bool
  data_status : String
deriving DecidableEq, Repr

/-- The success test both call sites perform on the verify result:
res and res.get(status) and res[data][status] == success. -/
def isSuccessVerify : Option GatewayVerifyData → Bool
  | some r => r.status && r.data_status == "success"
  | none => false

/-- Modelled from the spec: result of the Gateway Client initialize
call; a falsy result is none; the code only tests the boolean status
field and reads data.authorization_url and data.access_code. -/
structure GatewayInitData where
  status : Bool
  authorization_url : String
  access_code : String
deriving DecidableEq, Repr

/-- OrderEntry row (bulk_orders/models.py). serial_number equal to 0
models the unset (falsy) field of a not yet saved entry. -/
structure OrderEntry where
  id : String
  bulk_order_id : String
  serial_number : Nat
  email : String
  full_name : String
  size : String
  custom_name : String
  coupon_used : Option String
  paid : Bool
deriving DecidableEq, Repr

/-- CouponCode row (bulk_orders/models.py). -/
structure CouponCode where
  code : String
  bulk_order_id : String
  is_used : Bool
deriving DecidableEq, Repr

/-- Order row (order app), as touched by payment/views.py. -/
structure Order where
  id : String
  paid : Bool
  status : String
  total_cost : Nat
deriving DecidableEq, Repr

/-- PaymentTransaction row (payment/models.py); orders is the
many-to-many relation as a list of Order ids. -/
structure PaymentTransaction where
  reference : String
  amount : Nat
  email : String
  status : String
  orders : List String
deriving DecidableEq, Repr

/-- Inbound webhook body: either json.loads raised (malformed), or the
parsed payload with its event tag and the optional data.reference.
An absent event key is modelled by an event string that is not the
charge.success tag, which the code treats identically. -/
inductive WebhookBody where
  | malformed : WebhookBody
  | parsed (event : String) (reference : Option String) : WebhookBody
deriving DecidableEq, Repr

/-- Python str.split on a one-character separator, written on the
character list so that it evaluates inside the kernel; agrees with
str.split with no maxsplit: the empty string gives one empty part, and
every separator occurrence opens a new part. -/
def splitChar (sep : Char) : List Char → List (List Char)
  | [] => [[]]
  | c :: rest =>
    let r := splitChar sep rest
    if c = sep then [] :: r
    else (c :: r.headD []) :: r.tail

/-- reference.split with separator hyphen, as a list of strings. -/
def strSplitOnHyphen (s : String) : List String :=
  (splitChar '-' s.data).map fun l => String.mk l

/-- Python str.startswith. -/
def strStartsWith (s pre : String) : Bool :=
  pre.data.isPrefixOf s.data

/-- Python str.upper on the ascii range, which covers every uppercasing
the embedded code performs. -/
def charUpper (c : Char) : Char :=
  if 97 ≤ c.toNat ∧ c.toNat ≤ 122 then Char.ofNat (c.toNat - 32) else c

/-- Python str.upper on a string. -/
def strUpper (s : String) : String :=
  String.mk (s.data.map charUpper)

/-- Reference built by OrderEntryViewSet.initialize_payment
(bulk_orders/views.py line 565). -/
def bulkPaymentReference (bulkOrderId entryId : String) : String :=
  "ORDER-" ++ bulkOrderId ++ "-" ++ entryId

/-- Outcome of decoding an ORDER reference inside the webhook. -/
inductive BulkRefDecode where
  | ok (bulk_order_id order_entry_id : String) : BulkRefDecode
  | invalidFormat : BulkRefDecode
deriving DecidableEq, Repr

/-- The decoding steps of bulk_order_payment_webhook (lines 774-781):
reject a falsy reference or one not starting with ORDER-, then unpack
reference.split into exactly three parts, a ValueError (any other
number of parts) being reported as an invalid format. -/
def decodeBulkReference (reference : String) : BulkRefDecode :=
  if reference = "" ∨ strStartsWith reference "ORDER-" = false then .invalidFormat
  else
    match strSplitOnHyphen reference with
    | [_, bulk_order_id, order_entry_id] => .ok bulk_order_id order_entry_id
    | _ => .invalidFormat

/-- Lookup OrderEntry.objects.get scoped to the parent id. -/
def findEntry (entries : List OrderEntry) (entryId bulkId : String) : Option OrderEntry :=
  entries.find? fun e => e.id == entryId && e.bulk_order_id == bulkId

/-- The single row update order_entry.save with update_fields paid. -/
def markEntryPaid (entries : List OrderEntry) (entryId bulkId : String) : List OrderEntry :=
  entries.map fun e =>
    if e.id == entryId && e.bulk_order_id == bulkId then { e with paid := true } else e

/-- Result of one webhook invocation: the HTTP response, the entry
table afterwards, and the receipt emails and pdf tasks dispatched. -/
structure WebhookOutcome where
  response : HttpResponse
  entries : List OrderEntry
  emails : List String
  pdfs : List String
deriving DecidableEq, Repr

/-- Shallow embedding of bulk_order_payment_webhook
(bulk_orders/views.py lines 754-834). The signature argument stands for
the request signature header; the source never reads any header, which
is why the definition ignores it. verify_payment is the gateway oracle. -/
def bulk_order_payment_webhook (verify_payment : String → Option GatewayVerifyData)
    (entries : List OrderEntry) (method : String) (_signature : Option String)
    (body : WebhookBody) : WebhookOutcome :=
  if method ≠ "POST" then ⟨⟨405, "error", "Invalid method"⟩, entries, [], []⟩
  else
    match body with
    | .malformed => ⟨⟨400, "error", "Invalid JSON"⟩, entries, [], []⟩
    | .parsed event reference =>
      if event ≠ "charge.success" then
        ⟨⟨200, "ignored", "Not a charge.success event"⟩, entries, [], []⟩
      else
        match decodeBulkReference (reference.getD "") with
        | .invalidFormat => ⟨⟨200, "error", "Invalid reference format"⟩, entries, [], []⟩
        | .ok bulk_order_id order_entry_id =>
          if isSuccessVerify (verify_payment (reference.getD "")) then
            match findEntry entries order_entry_id bulk_order_id with
            | none => ⟨⟨404, "error", "Order entry not found"⟩, entries, [], []⟩
            | some e =>
              if e.paid then
                ⟨⟨200, "success", "Already processed"⟩, entries, [], []⟩
              else
                ⟨⟨200, "success", "Payment verified and order updated"⟩,
                 markEntryPaid entries order_entry_id bulk_order_id,
                 [order_entry_id], [order_entry_id]⟩
          else ⟨⟨400, "error", "Payment verification failed"⟩, entries, [], []⟩

/-- Module-level names defined by payment/views.py: the module defines
exactly three classes and no function named payment_webhook, so the
attribute access payment_views.payment_webhook in the router raises
AttributeError. -/
def payment_views_module_names : List String :=
  ["InitializePaymentView", "VerifyPaymentView", "PaymentTransactionViewSet"]

/-- Outcome of the router: either an HTTP response was returned to the
transport layer, or an exception escaped uncaught. -/
inductive RouterOutcome where
  | response (r : HttpResponse) : RouterOutcome
  | uncaughtError (exn : String) : RouterOutcome
deriving DecidableEq, Repr

/-- Shallow embedding of router_webhook (webhook_router/views.py).
A json parse failure returns 400. Otherwise the reference is read with
an empty-string default and, when it starts with ORDER-, the request is
forwarded to bulk_order_payment_webhook. Every other reference reaches
payment_views.payment_webhook, a name payment/views.py does not define:
the AttributeError raised inside the try block is caught by the bare
except clause, whose fallback evaluates the same missing attribute
again, so the AttributeError escapes uncaught. -/
def router_webhook (verify_payment : String → Option GatewayVerifyData)
    (entries : List OrderEntry) (method : String) (body : WebhookBody) : RouterOutcome :=
  match body with
  | .malformed => .response ⟨400, "", ""⟩
  | .parsed _ reference =>
    if strStartsWith (reference.getD "") "ORDER-" then
      .response (bulk_order_payment_webhook verify_payment entries method none body).response
    else if payment_views_module_names.contains "payment_webhook" then
      .response ⟨0, "", ""⟩
    else
      .uncaughtError "AttributeError: module payment.views has no attribute payment_webhook"

/-- Ledger state of the simple payment flow: the PaymentTransaction
table and the Order table. -/
structure PayState where
  transactions : List PaymentTransaction
  orders : List Order
deriving DecidableEq, Repr

/-- Result of one VerifyPaymentView.post invocation: response, the
state afterwards, and the references for which a receipt email plus pdf
dispatch happened. -/
structure VerifyOutcome where
  response : HttpResponse
  state : PayState
  emails : List String
deriving DecidableEq, Repr

/-- Shallow embedding of VerifyPaymentView.post (payment/views.py lines
43-77), with USE_CELERY_EMAIL false (the true branch references an
undefined name send_receipt_email_task). When the gateway reports
success the transaction found by reference is set to status success
unconditionally, every related order is marked paid, and a receipt
email is dispatched; the inner try swallows email errors, so the
dispatch is recorded on every pass. There is no idempotency check and
no already-processed response in the source. -/
def VerifyPaymentView_post (verify_payment : String → Option GatewayVerifyData)
    (s : PayState) (reference : String) : VerifyOutcome :=
  if isSuccessVerify (verify_payment reference) then
    match s.transactions.find? (fun t => t.reference == reference) with
    | none => ⟨⟨404, "error", "Transaction not found"⟩, s, []⟩
    | some t =>
      let transactions := s.transactions.map fun u =>
        if u.reference == reference then { u with status := "success" } else u
      let orders := s.orders.map fun o =>
        if t.orders.contains o.id then { o with paid := true, status := "paid" } else o
      ⟨⟨200, "success", "Payment verified"⟩, ⟨transactions, orders⟩, [reference]⟩
  else ⟨⟨400, "error", "Payment verification failed"⟩, s, []⟩

/-- The reference InitializePaymentView.post builds at line 23 of
payment/views.py: the JMW literal, a hyphen, and the first eight hex
digits of a fresh uuid4, uppercased. It is passed explicitly to
objects.create, so PaymentTransaction.save never generates one. -/
def initializeViewReference (uuidHex8 : String) : String :=
  "JMW-" ++ uuidHex8

/-- Result of one InitializePaymentView.post invocation. -/
structure InitializeOutcome where
  response : HttpResponse
  state : PayState
deriving DecidableEq, Repr

/-- The transaction record InitializePaymentView creates before the
gateway call, with the order added to the many-to-many set. -/
def addPendingTransaction (s : PayState) (o : Order) (email uuidHex8 : String) : PayState :=
  { s with transactions := s.transactions ++
      [{ reference := initializeViewReference uuidHex8, amount := o.total_cost,
         email := email, status := "pending", orders := [o.id] }] }

/-- Shallow embedding of InitializePaymentView.post (payment/views.py
lines 13-41): resolve the order or 404, create a pending
PaymentTransaction under the uuid-derived reference, add the order to
its many-to-many set, then call the gateway initialize. -/
def InitializePaymentView_post (initialize_payment : String → Option GatewayInitData)
    (s : PayState) (order_id email uuidHex8 : String) : InitializeOutcome :=
  match s.orders.find? (fun o => o.id == order_id) with
  | none => ⟨⟨404, "error", "Not found"⟩, s⟩
  | some o =>
    match initialize_payment (initializeViewReference uuidHex8) with
    | some r =>
      if r.status then
        ⟨⟨200, "success", initializeViewReference uuidHex8⟩,
         addPendingTransaction s o email uuidHex8⟩
      else
        ⟨⟨400, "error", "Payment initialization failed"⟩,
         addPendingTransaction s o email uuidHex8⟩
    | none =>
      ⟨⟨400, "error", "Payment initialization failed"⟩,
       addPendingTransaction s o email uuidHex8⟩

/-- Company short name used as reference prefix: settings define
COMPANY_SHORT_NAME as JMW, the fallback literal in
PaymentTransaction.save. -/
def companyShortName : String := "JMW"

/-- One candidate reference of PaymentTransaction.save line 52. -/
def payReference (pfx rand : String) : String :=
  pfx ++ "-PAY-" ++ rand

/-- The reference generation loop of PaymentTransaction.save
(payment/models.py lines 48-59), run only when the reference field is
unset: draw a random part, then while the resulting reference collides
with an existing one, redraw. The stream of random draws is modelled as
the list randoms; none means the modelled draws were exhausted before a
unique reference appeared. -/
def PaymentTransaction_generate_reference (existing : List String) :
    List String → Option String
  | [] => none
  | r :: rest =>
    if payReference companyShortName r ∈ existing then
      PaymentTransaction_generate_reference existing rest
    else some (payReference companyShortName r)

/-- The spec-side shape of a simple-flow reference, following the spec
words COMPANY_PREFIX dash FLOW_TAG dash random (JMW-PAY-A1B2C3D4): the
string extends JMW-PAY- by a random part. Stated on the character
list so that both directions are provable without string internals. -/
def specSimpleRefForm (r : String) : Prop :=
  ∃ rest : List Char, r.data = "JMW-PAY-".data ++ rest

/-- Serial numbers currently present under one parent, in table order. -/
def serialsFor (entries : List OrderEntry) (bulkId : String) : List Nat :=
  (entries.filter fun e => e.bulk_order_id == bulkId).map fun e => e.serial_number

/-- The aggregate Max over the entries of one parent in OrderEntry.save
(bulk_orders/models.py lines 123-128): the max_serial or 0 coalescing
of the Django aggregate makes the empty case 0. -/
def maxSerial (entries : List OrderEntry) (bulkId : String) : Nat :=
  (serialsFor entries bulkId).foldl max 0

/-- The allocation phase of OrderEntry.save (bulk_orders/models.py
lines 115-132) on the creation path, where serial_number is unset: the
transaction.atomic block locks the parent row with select_for_update,
reads the aggregate max over the entries it can see, and assigns its
successor; the block then commits, releasing the parent lock. The name
uppercasing (custom_name only when truthy) also happens before the
insert. The result is the in-memory instance about to be inserted —
the row is not yet in the table. -/
def OrderEntry_save_allocate (entries : List OrderEntry) (e : OrderEntry) : OrderEntry :=
  { e with
    serial_number := maxSerial entries e.bulk_order_id + 1,
    full_name := strUpper e.full_name,
    custom_name := if e.custom_name ≠ "" then strUpper e.custom_name else e.custom_name }

/-- The insert phase of OrderEntry.save: super().save() at line 135
runs outside the atomic block, after the parent lock was released at
the allocation commit. The unique_together (bulk_order, serial_number)
constraint of the Meta class makes the insert fail with IntegrityError
when the allocated serial is already taken under the parent. -/
def OrderEntry_insert (entries : List OrderEntry) (e : OrderEntry) :
    Except String (List OrderEntry) :=
  if entries.any fun x =>
      x.bulk_order_id == e.bulk_order_id && x.serial_number == e.serial_number then
    .error "IntegrityError"
  else .ok (entries ++ [e])

/-- One uninterfered save: the allocation immediately followed by its
own insert with no concurrent save committed in between, in which case
the insert always passes the constraint (OrderEntry_insert_after_allocate
below). This composite is what the serializer model uses for a single
request. Because the insert runs outside the atomic block, the parent
lock does NOT serialize whole saves: a concurrent save can run its
allocation between another save's allocation and insert, so this
composite does not cover concurrent creation. -/
def OrderEntry_save (entries : List OrderEntry) (e : OrderEntry) : List OrderEntry :=
  entries ++ [OrderEntry_save_allocate entries e]

/-- State of the bulk-order tables the serializer touches. -/
structure BulkStore where
  entries : List OrderEntry
  coupons : List CouponCode
deriving DecidableEq, Repr

/-- The coupon lookup of OrderEntrySerializer.validate (lines 53-59 of
bulk_orders/serializers.py): objects.get by code, scoped to the parent,
with is_used false, and no select_for_update. -/
def findCoupon (coupons : List CouponCode) (code bulkId : String) : Option CouponCode :=
  coupons.find? fun c => c.code == code && c.bulk_order_id == bulkId && c.is_used == false

/-- Shallow embedding of OrderEntrySerializer.validate (lines 38-66):
with a truthy coupon_code, a failed lookup raises the ValidationError
with the message below; a successful one records the coupon in attrs
and forces paid true. The result is the coupon attached to attrs, if
any. -/
def OrderEntrySerializer_validate (s : BulkStore) (bulkId : String)
    (coupon_code : Option String) : Except String (Option String) :=
  match coupon_code with
  | some c =>
    if c = "" then .ok none
    else
      match findCoupon s.coupons c bulkId with
      | some cp => .ok (some cp.code)
      | none => .error "Invalid or already used coupon code."
  | none => .ok none

/-- coupon_used.save after setting is_used true in
OrderEntrySerializer.create (lines 74-76). -/
def markCouponUsed (coupons : List CouponCode) (code : String) : List CouponCode :=
  coupons.map fun c => if c.code == code then { c with is_used := true } else c

/-- Shallow embedding of OrderEntrySerializer.create (lines 68-78) as
the sequence of committed store states it produces: first super().create
saves the entry (running the serial allocation of OrderEntry_save, with
paid already true when a coupon was validated), then, in a second
separate save with no enclosing transaction, the coupon is marked used.
Each list element is one committed state, in order. -/
def OrderEntrySerializer_create (s : BulkStore) (bulkId newId : String)
    (email full_name size custom_name : String) (couponOk : Option String) :
    List BulkStore :=
  let e : OrderEntry :=
    { id := newId, bulk_order_id := bulkId, serial_number := 0, email := email,
      full_name := full_name, size := size, custom_name := custom_name,
      coupon_used := couponOk, paid := couponOk.isSome }
  let s1 : BulkStore := { s with entries := OrderEntry_save s.entries e }
  match couponOk with
  | none => [s1]
  | some code => [s1, { s1 with coupons := markCouponUsed s1.coupons code }]

/-- One submission through the serializer: validate, then create; a
validation error commits nothing. -/
def submit_order (s : BulkStore) (bulkId newId : String)
    (email full_name size custom_name : String) (coupon_code : Option String) :
    Except String (List BulkStore) :=
  match OrderEntrySerializer_validate s bulkId coupon_code with
  | .error m => .error m
  | .ok couponOk =>
    .ok (OrderEntrySerializer_create s bulkId newId email full_name size custom_name couponOk)

/-- Outcome of OrderEntryViewSet.initialize_payment. -/
structure InitializePaymentActionOutcome where
  httpStatus : Nat
  errorMessage : Option String
  reference : Option String
  gatewayCalled : Bool
  entries : List OrderEntry
deriving DecidableEq, Repr

/-- Shallow embedding of OrderEntryViewSet.initialize_payment
(bulk_orders/views.py lines 552-587): an already paid entry is refused
with a 400 before the gateway initialize call; otherwise the gateway is
called with the ORDER reference and the result mapped to the response.
The action performs no writes, so the entry table passes through
unchanged. -/
def OrderEntryViewSet_initialize_payment
    (initialize_payment : String → Option GatewayInitData)
    (entries : List OrderEntry) (entry : OrderEntry) : InitializePaymentActionOutcome :=
  if entry.paid then
    ⟨400, some "This order has already been paid", none, false, entries⟩
  else
    match initialize_payment (bulkPaymentReference entry.bulk_order_id entry.id) with
    | some r =>
      if r.status then
        ⟨200, none, some (bulkPaymentReference entry.bulk_order_id entry.id), true, entries⟩
      else ⟨400, some "Payment initialization failed", none, true, entries⟩
    | none => ⟨400, some "Payment initialization failed", none, true, entries⟩

/-- Iterated delivery of the same webhook request: the entry table is
threaded through while responses and side effects accumulate in order. -/
def iterateWebhook (verify_payment : String → Option GatewayVerifyData)
    (method : String) (body : WebhookBody) :
    Nat → List OrderEntry → List HttpResponse × List OrderEntry × List String
  | 0, entries => ([], entries, [])
  | n + 1, entries =>
    let o := bulk_order_payment_webhook verify_payment entries method none body
    let rest := iterateWebhook verify_payment method body n o.entries
    (o.response :: rest.1, rest.2.1, o.emails ++ rest.2.2)

/-! Concrete fixtures used by the theorems below. -/

/-- Gateway oracle whose verify call reports success for every
reference. -/
def gatewaySuccess : String → Option GatewayVerifyData :=
  fun _ => some ⟨true, "success"⟩

/-- Gateway oracle whose verify call fails (transport error, timeout,
or a falsy response). -/
def gatewayDown : String → Option GatewayVerifyData :=
  fun _ => none

/-- An unpaid order entry under parent b1, with short non-uuid ids so
that its ORDER reference happens to be parseable. -/
def entryUnpaid : OrderEntry :=
  ⟨"e1", "b1", 1, "buyer@example.com", "ADA OBI", "L", "", none, false⟩

/-- A concrete parent uuid of the canonical hyphenated form. -/
def uuidParent : String := "3f2504e0-4f89-41d3-9a0c-0305e82c3301"

/-- A concrete entry uuid of the canonical hyphenated form. -/
def uuidChild : String := "9b2b3a3c-1d2e-4f56-8a7b-123456789abc"

/-- The unpaid entry under its uuid primary keys, as the table row the
webhook would have to find. -/
def entryUuid : OrderEntry :=
  ⟨uuidChild, uuidParent, 1, "buyer@example.com", "ADA OBI", "L", "", none, false⟩

/-- A pending simple-flow transaction over one order. -/
def txnPending : PaymentTransaction :=
  ⟨"JMW-PAY-TEST0001", 5000, "buyer@example.com", "pending", ["o1"]⟩

/-- The order txnPending pays for. -/
def orderUnpaid : Order := ⟨"o1", false, "created", 5000⟩

/-- Simple-flow ledger with one pending transaction and its order. -/
def payState0 : PayState := ⟨[txnPending], [orderUnpaid]⟩

/-- A transaction already in the terminal failed state. -/
def txnFailed : PaymentTransaction :=
  ⟨"JMW-PAY-TEST0002", 700, "late@example.com", "failed", []⟩

/-- An unused coupon for parent b1. -/
def couponFree : CouponCode := ⟨"ABC123", "b1", false⟩

/-- Bulk store holding only the unused coupon. -/
def store0 : BulkStore := ⟨[], [couponFree]⟩

/-- txnPending after its successful verification. -/
def txnSucceeded : PaymentTransaction :=
  ⟨"JMW-PAY-TEST0001", 5000, "buyer@example.com", "success", ["o1"]⟩

/-- The transaction a concrete payment initialization creates. -/
def txnCreated : PaymentTransaction :=
  ⟨"JMW-A1B2C3D4", 5000, "buyer@example.com", "pending", ["o1"]⟩

/-- A fresh entry prototype (serial unset) submitted under parent b1. -/
def protoA : OrderEntry :=
  ⟨"eA", "b1", 0, "a@example.com", "ADA OBI", "L", "", none, false⟩

/-- A second fresh prototype submitted concurrently under parent b1. -/
def protoB : OrderEntry :=
  ⟨"eB", "b1", 0, "bee@example.com", "EZE UDO", "M", "", none, false⟩

/-! Theorems settling the claims. -/

/-- C6: the reference codec does not round-trip on the references the
code actually produces. OrderEntryViewSet.initialize_payment builds
ORDER-parent-child from the uuid primary keys, whose canonical form
contains hyphens, so the three-way split of the webhook raises
ValueError and every such reference is answered with an invalid-format
error: the webhook never recovers the identifiers, never reads the
entry, and never marks it paid, although the entry exists and the
gateway confirms the charge. -/
theorem C6_uuid_reference_never_decodes :
    decodeBulkReference (bulkPaymentReference uuidParent uuidChild) = .invalidFormat ∧
    (bulk_order_payment_webhook gatewaySuccess [entryUuid] "POST" none
        (.parsed "charge.success" (some (bulkPaymentReference uuidParent uuidChild))))
      = ⟨⟨200, "error", "Invalid reference format"⟩, [entryUuid], [], []⟩ := by
  decide

/-- C8: the router is not total. For any request whose reference does
not start with ORDER-, router_webhook evaluates
payment_views.payment_webhook, an attribute payment/views.py does not
define; the AttributeError raised inside the try block is caught by the
bare except clause, whose fallback evaluates the same missing attribute
again, and the exception escapes to the transport layer. Requests with
an ORDER- reference are dispatched to the bulk handler as claimed. -/
theorem C8_router_raises_for_simple_reference :
    router_webhook gatewaySuccess [] "POST"
        (.parsed "charge.success" (some "JMW-PAY-A1B2C3D4"))
      = .uncaughtError
          "AttributeError: module payment.views has no attribute payment_webhook" ∧
    router_webhook gatewaySuccess [entryUnpaid] "POST"
        (.parsed "charge.success" (some "ORDER-b1-e1"))
      = .response ⟨200, "success", "Payment verified and order updated"⟩ := by
  decide

/-- C3 counterexample: a webhook claim carrying a tampered body and an
invalid signature header is processed end to end, the ledger is read,
and the entry is marked paid, instead of being rejected before any
ledger read: no handler recomputes or compares any signature. -/
theorem C3_counterexample_invalid_signature_processed :
    (bulk_order_payment_webhook gatewaySuccess [entryUnpaid] "POST"
        (some "stale-invalid-signature")
        (.parsed "charge.success" (some "ORDER-b1-e1")))
      = ⟨⟨200, "success", "Payment verified and order updated"⟩,
         [{ entryUnpaid with paid := true }], ["e1"], ["e1"]⟩ := by
  decide

/-- C3 amended: no signature enforcement exists. The webhook handler
never reads the signature header, so its outcome is independent of the
supplied signature; the only defense against a forged body is the
gateway re-verification performed on every claim. -/
theorem C3_amended_outcome_independent_of_signature
    (verify_payment : String → Option GatewayVerifyData) (entries : List OrderEntry)
    (method : String) (sig1 sig2 : Option String) (body : WebhookBody) :
    bulk_order_payment_webhook verify_payment entries method sig1 body
      = bulk_order_payment_webhook verify_payment entries method sig2 body := rfl

/-- C1: reconciliation is idempotent only on the webhook path. Two
deliveries of the same parseable webhook claim mark the entry paid
once, dispatch one receipt, and answer the replay with an
already-processed response; but two client-initiated verifications of
the same reference both re-run the transition and both dispatch the
receipt email, the second answering with the plain success message
instead of the already-verified no-op its own test suite expects. -/
theorem C1_verify_view_not_idempotent :
    (iterateWebhook gatewaySuccess "POST"
        (.parsed "charge.success" (some "ORDER-b1-e1")) 2 [entryUnpaid])
      = ([⟨200, "success", "Payment verified and order updated"⟩,
          ⟨200, "success", "Already processed"⟩],
         [{ entryUnpaid with paid := true }], ["e1"]) ∧
    (VerifyPaymentView_post gatewaySuccess payState0 "JMW-PAY-TEST0001").emails
      = ["JMW-PAY-TEST0001"] ∧
    (VerifyPaymentView_post gatewaySuccess
        (VerifyPaymentView_post gatewaySuccess payState0 "JMW-PAY-TEST0001").state
        "JMW-PAY-TEST0001")
      = ⟨⟨200, "success", "Payment verified"⟩,
         ⟨[{ txnPending with status := "success" }],
          [{ orderUnpaid with paid := true, status := "paid" }]⟩,
         ["JMW-PAY-TEST0001"]⟩ := by
  decide

/-- C2: no false success. When the gateway verify call fails, times
out, or reports any non-success status, neither reconcile entry point
changes any ledger state or dispatches any side effect, whatever the
inbound body or client request claims: the webhook leaves the entry
table untouched and the verification view leaves transactions and
orders untouched. -/
theorem C2_no_false_success (verify_payment : String → Option GatewayVerifyData)
    (hfail : ∀ r, isSuccessVerify (verify_payment r) = false) :
    (∀ (entries : List OrderEntry) (method : String) (signature : Option String)
        (body : WebhookBody),
      (bulk_order_payment_webhook verify_payment entries method signature body).entries
          = entries ∧
      (bulk_order_payment_webhook verify_payment entries method signature body).emails = [] ∧
      (bulk_order_payment_webhook verify_payment entries method signature body).pdfs = []) ∧
    (∀ (s : PayState) (reference : String),
      (VerifyPaymentView_post verify_payment s reference).state = s ∧
      (VerifyPaymentView_post verify_payment s reference).emails = []) := by
  constructor
  · intro entries method signature body
    by_cases hm : method ≠ "POST"
    · simp [bulk_order_payment_webhook, hm]
    · cases body with
      | malformed => simp [bulk_order_payment_webhook, hm]
      | parsed event reference =>
        by_cases he : event ≠ "charge.success"
        · simp [bulk_order_payment_webhook, hm, he]
        · cases hd : decodeBulkReference (reference.getD "") with
          | invalidFormat => simp [bulk_order_payment_webhook, hm, he, hd]
          | ok b c => simp [bulk_order_payment_webhook, hm, he, hd, hfail]
  · intro s reference
    unfold VerifyPaymentView_post
    rw [hfail]
    simp

/-- Witness for C2 at the gateway-down oracle on concrete stores. -/
theorem C2_no_false_success_witness :
    (bulk_order_payment_webhook gatewayDown [entryUnpaid] "POST" none
        (.parsed "charge.success" (some "ORDER-b1-e1"))).entries = [entryUnpaid] ∧
    (VerifyPaymentView_post gatewayDown payState0 "JMW-PAY-TEST0001").state = payState0 :=
  ⟨((C2_no_false_success gatewayDown (fun _ => rfl)).1 [entryUnpaid] "POST" none
      (.parsed "charge.success" (some "ORDER-b1-e1"))).1,
   ((C2_no_false_success gatewayDown (fun _ => rfl)).2 payState0 "JMW-PAY-TEST0001").1⟩

/-- C7 counterexample: a transaction already in the terminal failed
state is moved to success by a later verification whose gateway call
reports success, so the code does not keep failed records in their
terminal state. -/
theorem C7_counterexample_failed_becomes_success :
    (VerifyPaymentView_post gatewaySuccess ⟨[txnFailed], []⟩
        "JMW-PAY-TEST0002").state.transactions
      = [{ txnFailed with status := "success" }] := by
  decide

/-- C7 amended: the subsystem only ever writes the statuses pending (on
creation) and success (on verification): after any verification every
transaction either keeps its previous status or holds success, a record
already in success still holds success, and every transaction added by
payment initialization is pending; but a record externally in the
failed state is re-transitioned to success by a later successful
verification rather than staying failed. -/
theorem C7_amended_status_writes
    (verify_payment : String → Option GatewayVerifyData)
    (initialize_payment : String → Option GatewayInitData)
    (s : PayState) (reference order_id email uuidHex8 : String) :
    (∀ t' ∈ (VerifyPaymentView_post verify_payment s reference).state.transactions,
      ∃ t ∈ s.transactions, t'.reference = t.reference ∧
        (t'.status = t.status ∨ t'.status = "success") ∧
        (t.status = "success" → t'.status = "success")) ∧
    (∀ t' ∈ (InitializePaymentView_post initialize_payment s
              order_id email uuidHex8).state.transactions,
      t' ∈ s.transactions ∨ t'.status = "pending") := by
  constructor
  · intro t' ht'
    unfold VerifyPaymentView_post at ht'
    split at ht'
    · split at ht'
      · exact ⟨t', ht', rfl, Or.inl rfl, fun h => h⟩
      · simp only [VerifyOutcome.state] at ht'
        obtain ⟨u, hu, heq⟩ := List.mem_map.mp ht'
        by_cases hc : (u.reference == reference) = true
        · rw [if_pos hc] at heq
          exact ⟨u, hu, by rw [← heq], Or.inr (by rw [← heq]), fun _ => by rw [← heq]⟩
        · rw [if_neg hc] at heq
          exact ⟨u, hu, by rw [← heq], Or.inl (by rw [← heq]), fun h => by rw [← heq]; exact h⟩
    · exact ⟨t', ht', rfl, Or.inl rfl, fun h => h⟩
  · intro t' ht'
    unfold InitializePaymentView_post at ht'
    split at ht'
    · exact Or.inl ht'
    · split at ht' <;>
        first
        | (split at ht' <;>
            · simp only [addPendingTransaction, InitializeOutcome.state] at ht'
              rcases List.mem_append.mp ht' with h | h
              · exact Or.inl h
              · exact Or.inr (by cases List.mem_singleton.mp h; rfl))
        | (simp only [addPendingTransaction, InitializeOutcome.state] at ht'
           rcases List.mem_append.mp ht' with h | h
           · exact Or.inl h
           · exact Or.inr (by cases List.mem_singleton.mp h; rfl))

/-- Witness for C7 amended: the verified pending transaction of the
concrete ledger is accounted for, and the transaction created by a
concrete initialization is pending. -/
theorem C7_amended_status_writes_witness :
    (∃ t ∈ payState0.transactions,
      txnSucceeded.reference = t.reference ∧
      (txnSucceeded.status = t.status ∨ txnSucceeded.status = "success") ∧
      (t.status = "success" → txnSucceeded.status = "success")) ∧
    (txnCreated ∈ payState0.transactions ∨ txnCreated.status = "pending") :=
  ⟨(C7_amended_status_writes gatewaySuccess (fun _ => none) payState0
      "JMW-PAY-TEST0001" "o1" "buyer@example.com" "A1B2C3D4").1
      txnSucceeded (by decide),
   (C7_amended_status_writes gatewaySuccess (fun _ => none) payState0
      "JMW-PAY-TEST0001" "o1" "buyer@example.com" "A1B2C3D4").2
      txnCreated (by decide)⟩

/-- C10: initializing payment for an already paid entry fails fast with
the 400 response and no gateway call; the gateway initialize call is
made exactly when the entry is unpaid, and the action writes nothing in
either case. -/
theorem C10_initialize_payment_paid_guard
    (initialize_payment : String → Option GatewayInitData)
    (entries : List OrderEntry) (entry : OrderEntry) :
    (entry.paid = true →
      OrderEntryViewSet_initialize_payment initialize_payment entries entry
        = ⟨400, some "This order has already been paid", none, false, entries⟩) ∧
    (entry.paid = false →
      (OrderEntryViewSet_initialize_payment initialize_payment entries entry).gatewayCalled
          = true) ∧
    (OrderEntryViewSet_initialize_payment initialize_payment entries entry).entries
      = entries := by
  refine ⟨fun h => ?_, fun h => ?_, ?_⟩
  · unfold OrderEntryViewSet_initialize_payment
    rw [if_pos h]
  · unfold OrderEntryViewSet_initialize_payment
    rw [if_neg (by simp [h])]
    cases hg : initialize_payment (bulkPaymentReference entry.bulk_order_id entry.id) with
    | none => rfl
    | some r => by_cases hr : r.status = true <;> simp [hr]
  · unfold OrderEntryViewSet_initialize_payment
    split
    · rfl
    · cases hg : initialize_payment (bulkPaymentReference entry.bulk_order_id entry.id) with
      | none => rfl
      | some r => by_cases hr : r.status = true <;> simp [hr]

/-- Witness for C10 at a paid and an unpaid concrete entry with a
concrete gateway. -/
theorem C10_initialize_payment_paid_guard_witness :
    OrderEntryViewSet_initialize_payment (fun _ => none) [] { entryUnpaid with paid := true }
      = ⟨400, some "This order has already been paid", none, false, []⟩ ∧
    (OrderEntryViewSet_initialize_payment (fun _ => none) [] entryUnpaid).gatewayCalled
      = true :=
  ⟨(C10_initialize_payment_paid_guard (fun _ => none) [] { entryUnpaid with paid := true }).1
      rfl,
   (C10_initialize_payment_paid_guard (fun _ => none) [] entryUnpaid).2.1 rfl⟩

/-- Characterwise view of string append. -/
theorem string_data_append (a b : String) : (a ++ b).data = a.data ++ b.data := rfl

/-- The spec form is equivalent to the decidable prefix test on the
character list. -/
theorem specSimpleRefForm_iff_isPrefixOf (r : String) :
    specSimpleRefForm r ↔ ("JMW-PAY-".data.isPrefixOf r.data) = true := by
  rw [List.isPrefixOf_iff_prefix]
  constructor
  · rintro ⟨rest, h⟩
    exact ⟨rest, h.symm⟩
  · rintro ⟨rest, h⟩
    exact ⟨rest, h.symm⟩

/-- C9 counterexample: the reference under which InitializePaymentView
creates its transaction is the two-segment JMW dash uuid-hex string,
which does not extend JMW-PAY- (the prefix test is false, so by
specSimpleRefForm_iff_isPrefixOf the claimed three-segment PAY form
fails); the view also supplies the reference explicitly, bypassing the
re-roll loop of PaymentTransaction.save entirely. -/
theorem C9_counterexample_initialize_reference_shape :
    ((InitializePaymentView_post (fun _ => none) payState0 "o1" "buyer@example.com"
        "A1B2C3D4").state.transactions.map fun t => t.reference)
      = ["JMW-PAY-TEST0001", "JMW-A1B2C3D4"] ∧
    ("JMW-PAY-".data.isPrefixOf (initializeViewReference "A1B2C3D4").data) = false := by
  decide

/-- C9 amended: the generation of PaymentTransaction.save, which runs
only when the reference field is unset, does produce references of the
claimed JMW-PAY-random form and does re-roll a colliding draw until the
reference is absent from the store; but InitializePaymentView creates
its transactions under a self-made two-segment JMW-uuid reference with
no flow tag and no collision re-roll, so not every stored simple-flow
reference has the claimed form. -/
theorem C9_amended_generator_form (existing randoms : List String) (r : String)
    (h : PaymentTransaction_generate_reference existing randoms = some r) :
    r ∉ existing ∧ specSimpleRefForm r := by
  induction randoms with
  | nil => cases h
  | cons a rest ih =>
    unfold PaymentTransaction_generate_reference at h
    by_cases hc : payReference companyShortName a ∈ existing
    · rw [if_pos hc] at h
      exact ih h
    · rw [if_neg hc] at h
      have hr := Option.some.inj h
      subst hr
      refine ⟨hc, a.data, ?_⟩
      show ((companyShortName ++ "-PAY-") ++ a).data = "JMW-PAY-".data ++ a.data
      rw [string_data_append]
      congr 1

/-- Witness for C9 amended: a first draw colliding with the store is
re-rolled and the second draw is returned, unique and well-formed. -/
theorem C9_amended_generator_form_witness :
    "JMW-PAY-BBBBBBBB" ∉ ["JMW-PAY-AAAAAAAA"] ∧ specSimpleRefForm "JMW-PAY-BBBBBBBB" :=
  C9_amended_generator_form ["JMW-PAY-AAAAAAAA"] ["AAAAAAAA", "BBBBBBBB"]
    "JMW-PAY-BBBBBBBB" (by decide)

/-- The entry row as committed by the first save of a concrete coupon
redemption: paid under the coupon, serial allocated, name uppercased. -/
def entryCouponPaid : OrderEntry :=
  ⟨"e9", "b1", 1, "buyer@example.com", "ADA OBI", "L", "", some "ABC123", true⟩

/-- C4 counterexample: redeeming the unused coupon commits two separate
states, with no enclosing transaction and no lock. The first committed
state already holds the entry paid under coupon ABC123 while the coupon
row still has is_used false, exactly the split-brain state the claim
rules out; only the second, later commit marks the coupon used. -/
theorem C4_counterexample_split_brain_state :
    submit_order store0 "b1" "e9" "buyer@example.com" "Ada Obi" "L" "" (some "ABC123")
      = .ok [⟨[entryCouponPaid], [couponFree]⟩,
             ⟨[entryCouponPaid], [⟨"ABC123", "b1", true⟩]⟩] ∧
    couponFree.is_used = false ∧
    entryCouponPaid.paid = true ∧ entryCouponPaid.coupon_used = some "ABC123" :=
  ⟨rfl, rfl, rfl, rfl⟩

/-- After every coupon of a code is marked used, the unused-only lookup
of the validator no longer finds that code. -/
theorem findCoupon_markCouponUsed (cs : List CouponCode) (code bulkId : String) :
    findCoupon (markCouponUsed cs code) code bulkId = none := by
  induction cs with
  | nil => rfl
  | cons c t ih =>
    unfold markCouponUsed at ih ⊢
    unfold findCoupon at ih ⊢
    by_cases hc : c.code = code
    · simp only [List.map_cons, if_pos (beq_iff_eq.mpr hc)]
      rw [List.find?_cons_of_neg _ (by simp)]
      exact ih
    · simp only [List.map_cons, if_neg (by simpa using hc)]
      rw [List.find?_cons_of_neg _ (by simp [hc])]
      exact ih

/-- C4 amended: sequentially, coupon redemption is exactly-once — a
lookup finding no unused coupon of the code under the parent fails with
the validation error and commits nothing, a successful redemption ends
with the entry paid under the coupon and every coupon of that code
consumed, and any later redemption of the same code fails — but the
pairing is not atomic: the successful run commits the entry-paid state
first, while its coupons are still untouched, and marks the coupon used
only in a second, separate commit. -/
theorem C4_amended_sequential_exactly_once (s : BulkStore)
    (bulkId newId email full_name size custom_name code : String)
    (hcode : code ≠ "") :
    (findCoupon s.coupons code bulkId = none →
      submit_order s bulkId newId email full_name size custom_name (some code)
        = .error "Invalid or already used coupon code.") ∧
    (∀ cp, findCoupon s.coupons code bulkId = some cp →
      ∃ s1 s2 : BulkStore,
        submit_order s bulkId newId email full_name size custom_name (some code)
          = .ok [s1, s2] ∧
        s1.coupons = s.coupons ∧
        (∃ e ∈ s2.entries, e.id = newId ∧ e.paid = true ∧ e.coupon_used = some cp.code) ∧
        (∀ c ∈ s2.coupons, c.code = cp.code → c.is_used = true) ∧
        (∀ otherId, submit_order s2 bulkId otherId email full_name size custom_name
            (some code) = .error "Invalid or already used coupon code.")) := by
  constructor
  · intro hnone
    unfold submit_order OrderEntrySerializer_validate
    dsimp only
    rw [if_neg hcode, hnone]
  · intro cp hcp
    have hpred := List.find?_some hcp
    simp only [Bool.and_eq_true, beq_iff_eq] at hpred
    obtain ⟨⟨hcpcode, hcpbulk⟩, hcpused⟩ := hpred
    refine ⟨⟨OrderEntry_save s.entries
        { id := newId, bulk_order_id := bulkId, serial_number := 0, email := email,
          full_name := full_name, size := size, custom_name := custom_name,
          coupon_used := some cp.code, paid := true }, s.coupons⟩,
      ⟨OrderEntry_save s.entries
        { id := newId, bulk_order_id := bulkId, serial_number := 0, email := email,
          full_name := full_name, size := size, custom_name := custom_name,
          coupon_used := some cp.code, paid := true },
       markCouponUsed s.coupons cp.code⟩, ?_, rfl, ?_, ?_, ?_⟩
    · unfold submit_order OrderEntrySerializer_validate
      dsimp only
      rw [if_neg hcode, hcp]
      rfl
    · refine ⟨_, List.mem_append_right _ (List.mem_singleton.mpr rfl), rfl, rfl, rfl⟩
    · intro c hc hccode
      obtain ⟨u, hu, hueq⟩ := List.mem_map.mp hc
      by_cases huc : (u.code == cp.code) = true
      · rw [if_pos huc] at hueq
        rw [← hueq]
      · rw [if_neg huc] at hueq
        rw [← hueq] at hccode
        exact absurd (beq_iff_eq.mpr hccode) huc
    · intro otherId
      unfold submit_order OrderEntrySerializer_validate
      dsimp only
      rw [if_neg hcode]
      have hnone2 : findCoupon (markCouponUsed s.coupons cp.code) code bulkId = none := by
        rw [hcpcode]
        exact findCoupon_markCouponUsed s.coupons code bulkId
      rw [hnone2]

/-- Witness for C4 amended: on a store whose only ABC123 coupon is
already used, the submission fails with the validation error. -/
theorem C4_amended_sequential_exactly_once_witness :
    submit_order ⟨[], [⟨"ABC123", "b1", true⟩]⟩ "b1" "e9" "buyer@example.com" "Ada Obi"
        "L" "" (some "ABC123") = .error "Invalid or already used coupon code." :=
  (C4_amended_sequential_exactly_once ⟨[], [⟨"ABC123", "b1", true⟩]⟩ "b1" "e9"
      "buyer@example.com" "Ada Obi" "L" "" "ABC123" (by decide)).1 (by decide)

/-- A left fold of max dominates its start and every list element. -/
theorem foldl_max_dominates (l : List Nat) :
    ∀ a : Nat, a ≤ l.foldl max a ∧ ∀ x ∈ l, x ≤ l.foldl max a := by
  induction l with
  | nil => intro a; exact ⟨Nat.le_refl a, by simp⟩
  | cons c t ih =>
    intro a
    refine ⟨Nat.le_trans (Nat.le_max_left a c) ((ih (max a c)).1), ?_⟩
    intro x hx
    rcases List.mem_cons.mp hx with rfl | hx
    · exact Nat.le_trans (Nat.le_max_right a x) ((ih (max a x)).1)
    · exact (ih (max a c)).2 x hx

/-- An uninterfered save always passes the uniqueness constraint: the
serial its allocation computed exceeds every serial the allocation
read, so inserting right after allocating, with no concurrent save
committed in between, succeeds and equals the one-step composite. -/
theorem OrderEntry_insert_after_allocate (entries : List OrderEntry) (e : OrderEntry) :
    OrderEntry_insert entries (OrderEntry_save_allocate entries e)
      = .ok (OrderEntry_save entries e) := by
  unfold OrderEntry_insert OrderEntry_save
  rw [if_neg ?hno]
  case hno =>
    intro hany
    obtain ⟨x, hx, hpred⟩ := List.any_eq_true.mp hany
    simp only [OrderEntry_save_allocate, Bool.and_eq_true, beq_iff_eq] at hpred
    obtain ⟨hbulk, hser⟩ := hpred
    have hmem : x.serial_number ∈ serialsFor entries e.bulk_order_id := by
      unfold serialsFor
      exact List.mem_map.mpr ⟨x, List.mem_filter.mpr ⟨hx, by simp [hbulk]⟩, rfl⟩
    have hle := (foldl_max_dominates (serialsFor entries e.bulk_order_id) 0).2 _ hmem
    unfold maxSerial at hser
    omega

/-- C5: the claimed guarantee fails under the concurrent creation its
spec source describes, because the atomic block of OrderEntry.save ends
— committing and so releasing the parent lock — after the serial is
computed but before super().save() inserts the row. The lock therefore
admits the interleaving allocate-A, allocate-B, insert-A, insert-B:
both allocations read the empty parent and compute serial one, the
first insert succeeds, and the second violates the unique_together
constraint and dies with IntegrityError instead of receiving serial
two, so two concurrent creations do not yield the serials one and
two. -/
theorem C5_lock_released_before_insert_race :
    (OrderEntry_save_allocate [] protoA).serial_number = 1 ∧
    (OrderEntry_save_allocate [] protoB).serial_number = 1 ∧
    OrderEntry_insert [] (OrderEntry_save_allocate [] protoA)
      = .ok [OrderEntry_save_allocate [] protoA] ∧
    OrderEntry_insert [OrderEntry_save_allocate [] protoA]
        (OrderEntry_save_allocate [] protoB)
      = .error "IntegrityError" :=
  ⟨rfl, rfl, rfl, rfl⟩

end JMW
